import Mathlib

/-!
# DatabaseTools: query builders

A shallow embedding of `Query.hpp` and `Database.hpp` (namespace `databaseTools`).
Member functions become functions on explicit state; a fluent mutator returns the
updated builder.  The builders never run SQL: the `Database` collaborator is only
consulted for schema introspection, so it is embedded as its three introspection
functions.
-/

namespace databaseTools

/-! ## Database.hpp -/

/-- Possible types of the data (`enum DataType`). -/
inductive DataType where
  | INTEGER
  | TEXT
  | REAL
  | NUMERIC
  | BLOB
  deriving DecidableEq, Repr

/-- The schema side of `class Database`: `isTable`, `columnList`, `columnsType`.
Their bodies are not part of the headers, so a database is any triple of such
functions. -/
structure Database where
  isTable : String → Bool
  columnList : String → List String
  columnsType : String → List (String × DataType)

/-! ## Query.hpp: enumerations -/

/-- Types of Query available (`Query::QueryTypes`). -/
inductive QueryTypes where
  | SELECT
  | INSERT
  | CREATE
  | UPDATE
  | DELETE
  deriving DecidableEq, Repr

/-- Column constraints (`Query::Constraints`). -/
inductive Constraints where
  | PRIMARY_KEY
  | UNIQUE
  | AUTOINCREMENT
  | NOT_NULL
  deriving DecidableEq, Repr

/-- Join types (`Query::JoinType`). -/
inductive JoinType where
  | INNER_JOIN
  | LEFT_JOIN
  deriving DecidableEq, Repr

/-! ## Query::Column -/

/-- `Query::Column`: a column with the related table; `m_tableName` defaults to `""`. -/
structure Column where
  m_tableName : String := ""
  m_columnName : String
  deriving DecidableEq, Repr

namespace Column

/-- `Column(columnName)`: both one-argument constructors leave `m_tableName` at its
default `""`. -/
def ofName (columnName : String) : Column :=
  { m_columnName := columnName }

/-- `Column(tableName, columnName)`. -/
def ofTable (tableName columnName : String) : Column :=
  { m_tableName := tableName, m_columnName := columnName }

/-- `Column::str`: `(!m_tableName.empty() ? m_tableName + "." : "") + m_columnName`. -/
def str (c : Column) : String :=
  (if ¬ (c.m_tableName = "") then c.m_tableName ++ "." else "") ++ c.m_columnName

def tableName (c : Column) : String := c.m_tableName

def setTableName (c : Column) (table : String) : Column :=
  { c with m_tableName := table }

def columnName (c : Column) : String := c.m_columnName

def setColumnName (c : Column) (column : String) : Column :=
  { c with m_columnName := column }

end Column

/-! ## Query: shared base state -/

/-- `Query::Join`: join informations. -/
structure Join where
  table : String
  localColumn : String
  distantColumn : String
  type : JoinType
  deriving DecidableEq, Repr

/-- The data members of `class Query`; `m_joins` starts empty and `m_valid` starts
`false`. -/
structure Query where
  m_table : String
  m_joins : List Join := []
  m_db : Database
  m_valid : Bool := false

namespace Query

/-- `Query::Query(table, db) : m_table(table), m_db(db)`. -/
def init (table : String) (db : Database) : Query :=
  { m_table := table, m_db := db }

/-- `Query::isValid`: returns `m_valid`. -/
def isValid (q : Query) : Bool := q.m_valid

/-- `Query::setValid`. -/
def setValid (q : Query) (valid : Bool) : Query :=
  { q with m_valid := valid }

/-- `Query::table`. -/
def table (q : Query) : String := q.m_table

/-- `Query::db`. -/
def db (q : Query) : Database := q.m_db

/-- `Query::doWhere(conditions, condition)`: `conditions.push_back(condition)`.  The
base object is not touched, so only the list is returned. -/
def doWhereRaw (conditions : List String) (condition : String) : List String :=
  conditions ++ [condition]

end Query

/-! ## Shared primitives whose bodies live in Query.cpp / Database.cpp -/

/-- Modelled from the spec: `Database::dataTypeAsString` (declared in Database.hpp,
body absent).  Spec §6: INTEGER/TEXT/REAL/NUMERIC/BLOB map 1:1 to their uppercase
SQL keyword. -/
def dataTypeAsString : DataType → String
  | .INTEGER => "INTEGER"
  | .TEXT => "TEXT"
  | .REAL => "REAL"
  | .NUMERIC => "NUMERIC"
  | .BLOB => "BLOB"

/-- Modelled from the spec: `Database::dataTypeFromString` (declared in Database.hpp,
body absent).  Spec §6: the inverse of the keyword mapping.  The spec does not say
what a string outside the five keywords yields; it is `none` here. -/
def dataTypeFromString (data : String) : Option DataType :=
  if data = "INTEGER" then some .INTEGER
  else if data = "TEXT" then some .TEXT
  else if data = "REAL" then some .REAL
  else if data = "NUMERIC" then some .NUMERIC
  else if data = "BLOB" then some .BLOB
  else none

/-- Single-quoted literal: the value between two `\x27` characters, no escaping. -/
def quoted (value : String) : String :=
  "\x27" ++ value ++ "\x27"

namespace Query

/-- The table a column reference is resolved against: the column's own table when one
is set, the statement's table otherwise. -/
def columnTable (q : Query) (column : Column) : String :=
  if column.m_tableName = "" then q.m_table else column.m_tableName

/-- The schema test of spec §4.2 validateColumn: the table exists, then the column
exists in that table's column list. -/
def columnExists (q : Query) (column : Column) : Bool :=
  q.m_db.isTable (q.columnTable column)
    && (q.m_db.columnList (q.columnTable column)).contains column.m_columnName

/-- Modelled from the spec: `Query::checkColumnExistance` (declared in Query.hpp, body
absent).  Spec §4.2 validateColumn: checks the table exists, then that the column
exists in that table's column list; on failure sets validity to false as a side effect
and returns failure; never raises.  Returns the outcome and the updated base. -/
def checkColumnExistance (q : Query) (column : Column) : Bool × Query :=
  if q.columnExists column then (true, q) else (false, q.setValid false)

/-- Modelled from the spec: `Query::dataType` (declared in Query.hpp, body absent).
Spec §4.2 typeOf: resolves a column's DataType via schema lookup; an unqualified
column is looked up in the statement's own table before the joined tables.  `none`
when no table defines the column. -/
def dataType (q : Query) (column : Column) : Option DataType :=
  if column.m_tableName = "" then
    (q.m_table :: q.m_joins.map Join.table).findSome?
      (fun t => (q.m_db.columnsType t).lookup column.m_columnName)
  else
    (q.m_db.columnsType column.m_tableName).lookup column.m_columnName

/-- Modelled from the spec: `Query::doColumn` (declared in Query.hpp, body absent).
Spec §4.2 pushColumn: validate, then append to the list. -/
def doColumn (q : Query) (columns : List String) (column : Column) :
    Query × List String :=
  let r := q.checkColumnExistance column
  if r.1 then (r.2, columns ++ [column.str]) else (r.2, columns)

/-- Modelled from the spec: `Query::doSort` (declared in Query.hpp, body absent).
Spec §4.2 pushSort: validate, then append to the list. -/
def doSort (q : Query) (sortColumns : List String) (column : Column) :
    Query × List String :=
  let r := q.checkColumnExistance column
  if r.1 then (r.2, sortColumns ++ [column.str]) else (r.2, sortColumns)

/-- Modelled from the spec: `Query::doJoin` (declared in Query.hpp, body absent).
Spec §4.2 pushJoin appends a Join record; spec §9 records that the source accepts a
join without checking that the joined table exists, which is what is embedded. -/
def doJoin (q : Query) (table localColumn distantColumn : String) (type : JoinType) :
    Query :=
  { q with m_joins := q.m_joins ++ [⟨table, localColumn, distantColumn, type⟩] }

/-- One rendered join clause (spec §4.2 renderJoins):
`<INNER|LEFT> JOIN table ON localCol = distantCol`, with the blank that separates it
from what precedes. -/
def joinClause (j : Join) : String :=
  (match j.type with
    | .INNER_JOIN => " INNER JOIN "
    | .LEFT_JOIN => " LEFT JOIN ")
  ++ j.table ++ " ON " ++ j.localColumn ++ " = " ++ j.distantColumn

/-- Modelled from the spec: `Query::joinStatement` (declared in Query.hpp, body absent).
Spec §4.2 renderJoins: renders each Join in insertion order. -/
def joinStatement (q : Query) : String :=
  String.join (q.m_joins.map joinClause)

/-- The optional `WHERE c1 AND c2 ...` part shared by Select, Update and Delete
(spec §4.3, §4.6, §4.7): conditions combine with AND only. -/
def whereClause (conditions : List String) : String :=
  if conditions = [] then "" else " WHERE " ++ " AND ".intercalate conditions

end Query

/-! ## SelectQuery -/

/-- `class SelectQuery : public Query` with its four data members. -/
structure SelectQuery extends Query where
  m_columns : List String := []
  m_conditions : List String := []
  m_sortColumns : List String := []
  m_sortAscending : Bool := true

namespace SelectQuery

/-- `SelectQuery::SelectQuery(table, db) : Query(table, db)` with body `setValid(true)`. -/
def init (table : String) (db : Database) : SelectQuery :=
  { toQuery := (Query.init table db).setValid true }

/-- `SelectQuery::column`: `doColumn(m_columns, column)`. -/
def column (q : SelectQuery) (column : Column) : SelectQuery :=
  let r := q.toQuery.doColumn q.m_columns column
  { q with toQuery := r.1, m_columns := r.2 }

/-- `SelectQuery::where(const std::string&)`: `doWhere(m_conditions, condition)`. -/
def whereRaw (q : SelectQuery) (condition : String) : SelectQuery :=
  { q with m_conditions := Query.doWhereRaw q.m_conditions condition }

/-- `SelectQuery::sort`: `doSort(m_sortColumns, column); m_sortAscending = ascending;`. -/
def sort (q : SelectQuery) (column : Column) (ascending : Bool) : SelectQuery :=
  let r := q.toQuery.doSort q.m_sortColumns column
  { q with toQuery := r.1, m_sortColumns := r.2, m_sortAscending := ascending }

/-- `SelectQuery::join`: `doJoin(table, localColumn, distantColumn, type)`. -/
def join (q : SelectQuery) (table localColumn distantColumn : String) (type : JoinType) :
    SelectQuery :=
  { q with toQuery := q.toQuery.doJoin table localColumn distantColumn type }

/-- The projection list of the rendering (spec §4.3): `*` when no column was added. -/
def columnsClause (q : SelectQuery) : String :=
  if q.m_columns = [] then "*" else ", ".intercalate q.m_columns

/-- The optional `ORDER BY <sortCols> <ASC|DESC>` part (spec §4.3): one direction
token after the whole column list. -/
def orderClause (q : SelectQuery) : String :=
  if q.m_sortColumns = [] then ""
  else " ORDER BY " ++ ", ".intercalate q.m_sortColumns
    ++ (if q.m_sortAscending then " ASC" else " DESC")

/-- Modelled from the spec: `SelectQuery::str` (declared in Query.hpp, body absent).
Spec §3: the rendering is empty when the builder is not valid; spec §4.3:
`SELECT <cols|*> FROM <table> <joins> [WHERE <c1> AND <c2> ...] [ORDER BY <sortCols> <ASC|DESC>]`. -/
def str (q : SelectQuery) : String :=
  if q.isValid = false then ""
  else "SELECT " ++ q.columnsClause ++ " FROM " ++ q.m_table ++ q.joinStatement
    ++ Query.whereClause q.m_conditions ++ q.orderClause

end SelectQuery

/-! ## InsertQuery -/

/-- `class InsertQuery : public Query` with `m_values`. -/
structure InsertQuery extends Query where
  m_values : List (String × String) := []

namespace InsertQuery

/-- `InsertQuery::InsertQuery(table, db) : Query(table, db)`, empty body. -/
def init (table : String) (db : Database) : InsertQuery :=
  { toQuery := Query.init table db }

/-- Modelled from the spec: `InsertQuery::str` (declared in Query.hpp, body absent).
Spec §3: empty when not valid; spec §4.4: `INSERT INTO <table> (<cols>) VALUES (<vals>)`,
values uniformly quoted as text. -/
def str (q : InsertQuery) : String :=
  if q.isValid = false then ""
  else "INSERT INTO " ++ q.m_table ++ " (" ++ ", ".intercalate (q.m_values.map Prod.fst)
    ++ ") VALUES (" ++ ", ".intercalate (q.m_values.map (fun e => quoted e.2)) ++ ")"

end InsertQuery

/-! ## CreateQuery -/

/-- `class CreateQuery : public Query`: the `IF NOT EXISTS` flag, the column tuples
(name, type, foreign-key table, foreign-key field) and one column list per constraint. -/
structure CreateQuery extends Query where
  m_ifNotExists : Bool := false
  m_columns : List (String × DataType × String × String) := []
  m_primaryKeyColumns : List String := []
  m_uniqueColumns : List String := []
  m_autoincrementColumns : List String := []
  m_notNullColumns : List String := []

namespace CreateQuery

/-- `CreateQuery::CreateQuery(table, db) : Query(table, db)`, empty body. -/
def init (table : String) (db : Database) : CreateQuery :=
  { toQuery := Query.init table db }

/-- `CreateQuery::ifNotExists`: `m_ifNotExists = true`. -/
def ifNotExists (q : CreateQuery) : CreateQuery :=
  { q with m_ifNotExists := true }

/-- One column definition (spec §4.5): `name TYPE`, or
`name TYPE REFERENCES fkTable(fkField)` when a foreign-key target is supplied. -/
def columnDefinition (c : String × DataType × String × String) : String :=
  c.1 ++ " " ++ dataTypeAsString c.2.1
    ++ (if c.2.2.1 = "" then "" else " REFERENCES " ++ c.2.2.1 ++ "(" ++ c.2.2.2 ++ ")")

/-- One aggregate constraint clause (spec §4.5), such as `PRIMARY KEY(col,...)`; absent
for a constraint kind without member. -/
def constraintClause (keyword : String) (columns : List String) : List String :=
  if columns = [] then [] else [keyword ++ "(" ++ ",".intercalate columns ++ ")"]

/-- Modelled from the spec: `CreateQuery::str` (declared in Query.hpp, body absent).
Spec §3: empty when not valid; spec §4.5:
`CREATE TABLE [IF NOT EXISTS] <table> (<colDefs>, <constraintClauses>)`. -/
def str (q : CreateQuery) : String :=
  if q.isValid = false then ""
  else "CREATE TABLE " ++ (if q.m_ifNotExists then "IF NOT EXISTS " else "") ++ q.m_table
    ++ " (" ++ ", ".intercalate (q.m_columns.map columnDefinition
        ++ constraintClause "PRIMARY KEY" q.m_primaryKeyColumns
        ++ constraintClause "UNIQUE" q.m_uniqueColumns
        ++ constraintClause "AUTOINCREMENT" q.m_autoincrementColumns
        ++ constraintClause "NOT NULL" q.m_notNullColumns) ++ ")"

end CreateQuery

/-! ## UpdateQuery -/

/-- `class UpdateQuery : public Query` with `m_set` (a `std::map`, kept as its entries
in key order) and `m_conditions`. -/
structure UpdateQuery extends Query where
  m_set : List (String × String) := []
  m_conditions : List String := []

namespace UpdateQuery

/-- `UpdateQuery::UpdateQuery(table, db) : Query(table, db)`, empty body. -/
def init (table : String) (db : Database) : UpdateQuery :=
  { toQuery := Query.init table db }

/-- `UpdateQuery::where(const std::string&)`: `doWhere(m_conditions, condition)`. -/
def whereRaw (q : UpdateQuery) (condition : String) : UpdateQuery :=
  { q with m_conditions := Query.doWhereRaw q.m_conditions condition }

/-- Rendering of a value to assign (spec §6): TEXT/BLOB/REAL/NUMERIC values are
single-quoted as text; an INTEGER value is emitted as given. -/
def setValue (q : UpdateQuery) (columnName value : String) : String :=
  match q.toQuery.dataType (Column.ofName columnName) with
  | some .INTEGER => value
  | _ => quoted value

/-- One assignment `col=val` of the SET clause (spec §4.6). -/
def assignment (q : UpdateQuery) (e : String × String) : String :=
  e.1 ++ "=" ++ q.setValue e.1 e.2

/-- The SET clause (spec §4.6): `col=val, ...`, in the iteration order of `m_set`. -/
def setClause (q : UpdateQuery) : String :=
  ", ".intercalate (q.m_set.map q.assignment)

/-- Modelled from the spec: `UpdateQuery::str` (declared in Query.hpp, body absent).
Spec §3: empty when not valid; spec §4.6: `UPDATE <table> SET col=val, ... [WHERE ...]`. -/
def str (q : UpdateQuery) : String :=
  if q.isValid = false then ""
  else "UPDATE " ++ q.m_table ++ " SET " ++ q.setClause ++ Query.whereClause q.m_conditions

end UpdateQuery

/-! ## DeleteQuery -/

/-- `class DeleteQuery : public Query` with `m_conditions`. -/
structure DeleteQuery extends Query where
  m_conditions : List String := []

namespace DeleteQuery

/-- `DeleteQuery::DeleteQuery(table, db) : Query(table, db)` with body `setValid(true)`. -/
def init (table : String) (db : Database) : DeleteQuery :=
  { toQuery := (Query.init table db).setValid true }

/-- `DeleteQuery::where(const std::string&)`: `doWhere(m_conditions, condition)`. -/
def whereRaw (q : DeleteQuery) (condition : String) : DeleteQuery :=
  { q with m_conditions := Query.doWhereRaw q.m_conditions condition }

/-- Modelled from the spec: `DeleteQuery::str` (declared in Query.hpp, body absent).
Spec §3: empty when not valid; spec §4.7: `DELETE FROM <table> [WHERE ...]`. -/
def str (q : DeleteQuery) : String :=
  if q.isValid = false then ""
  else "DELETE FROM " ++ q.m_table ++ Query.whereClause q.m_conditions

end DeleteQuery

/-! ## Factory dispatch -/

/-- The five concrete builder classes. -/
inductive QueryClass where
  | select
  | insert
  | create
  | update
  | delete
  deriving DecidableEq, Repr

namespace QueryClass

/-- The state type of a concrete builder class. -/
def type : QueryClass → Type
  | .select => SelectQuery
  | .insert => InsertQuery
  | .create => CreateQuery
  | .update => UpdateQuery
  | .delete => DeleteQuery

/-- The constructor `C(table, db)` of each concrete class. -/
def construct : (c : QueryClass) → String → Database → c.type
  | .select, table, db => SelectQuery.init table db
  | .insert, table, db => InsertQuery.init table db
  | .create, table, db => CreateQuery.init table db
  | .update, table, db => UpdateQuery.init table db
  | .delete, table, db => DeleteQuery.init table db

/-- The `Query` base object of a builder. -/
def base : (c : QueryClass) → c.type → Query
  | .select, q => SelectQuery.toQuery q
  | .insert, q => InsertQuery.toQuery q
  | .create, q => CreateQuery.toQuery q
  | .update, q => UpdateQuery.toQuery q
  | .delete, q => DeleteQuery.toQuery q

/-- The virtual `Query::isValid`; no concrete class overrides it. -/
def isValid (c : QueryClass) (q : c.type) : Bool :=
  (c.base q).isValid

/-- The virtual `Query::str`, dispatched to the override of the concrete class. -/
def str : (c : QueryClass) → c.type → String
  | .select, q => SelectQuery.str q
  | .insert, q => InsertQuery.str q
  | .create, q => CreateQuery.str q
  | .update, q => UpdateQuery.str q
  | .delete, q => DeleteQuery.str q

end QueryClass

/-- The specialisations of `Query::FindQueryType<T>`: the class matching each tag. -/
def FindQueryType : QueryTypes → QueryClass
  | .SELECT => .select
  | .INSERT => .insert
  | .CREATE => .create
  | .UPDATE => .update
  | .DELETE => .delete

/-- `Query::createQuery<T>(table, db)`:
`return typename Query::FindQueryType<T>::type(table, db);`. -/
def createQuery (T : QueryTypes) (table : String) (db : Database) :
    (FindQueryType T).type :=
  (FindQueryType T).construct table db

/-! ## Sequences of fluent calls -/

end databaseTools

namespace databaseTools

/-! ## Lemmas on strings -/

/-- A string that starts with a non-empty string is not empty. -/
theorem append_ne_empty (a b : String) (h : a ≠ "") : a ++ b ≠ "" := by
  intro hab
  apply h
  have hd : (a ++ b).data = [] := by rw [hab]
  rw [String.data_append, List.append_eq_nil] at hd
  exact String.ext hd.1

namespace Query

theorem checkColumnExistance_fst (q : Query) (c : Column) :
    (q.checkColumnExistance c).1 = q.columnExists c := by
  unfold checkColumnExistance
  split
  · rename_i h
    simp [h]
  · rename_i h
    simp at h
    simp [h]

theorem checkColumnExistance_snd (q : Query) (c : Column) :
    (q.checkColumnExistance c).2 = if q.columnExists c then q else q.setValid false := by
  unfold checkColumnExistance
  split <;> rfl

theorem checkColumnExistance_table (q : Query) (c : Column) :
    (q.checkColumnExistance c).2.m_table = q.m_table := by
  rw [checkColumnExistance_snd]
  split <;> rfl

theorem checkColumnExistance_db (q : Query) (c : Column) :
    (q.checkColumnExistance c).2.m_db = q.m_db := by
  rw [checkColumnExistance_snd]
  split <;> rfl

theorem checkColumnExistance_joins (q : Query) (c : Column) :
    (q.checkColumnExistance c).2.m_joins = q.m_joins := by
  rw [checkColumnExistance_snd]
  split <;> rfl

end Query

/-! ## Rendering and validity -/

/-- C1: for a builder of any of the five classes, in any state, `str()` returns the
empty string if and only if `isValid()` is false. -/
theorem str_empty_iff_not_valid (c : QueryClass) (q : c.type) :
    c.str q = "" ↔ c.isValid q = false := by
  cases c
  · show SelectQuery.str q = "" ↔ (SelectQuery.toQuery q).isValid = false
    unfold SelectQuery.str
    constructor
    · intro h
      by_contra hv
      rw [if_neg hv] at h
      simp only [String.append_assoc] at h
      exact append_ne_empty _ _ (by decide) h
    · intro hv
      rw [if_pos hv]
  · show InsertQuery.str q = "" ↔ (InsertQuery.toQuery q).isValid = false
    unfold InsertQuery.str
    constructor
    · intro h
      by_contra hv
      rw [if_neg hv] at h
      simp only [String.append_assoc] at h
      exact append_ne_empty _ _ (by decide) h
    · intro hv
      rw [if_pos hv]
  · show CreateQuery.str q = "" ↔ (CreateQuery.toQuery q).isValid = false
    unfold CreateQuery.str
    constructor
    · intro h
      by_contra hv
      rw [if_neg hv] at h
      simp only [String.append_assoc] at h
      exact append_ne_empty _ _ (by decide) h
    · intro hv
      rw [if_pos hv]
  · show UpdateQuery.str q = "" ↔ (UpdateQuery.toQuery q).isValid = false
    unfold UpdateQuery.str
    constructor
    · intro h
      by_contra hv
      rw [if_neg hv] at h
      simp only [String.append_assoc] at h
      exact append_ne_empty _ _ (by decide) h
    · intro hv
      rw [if_pos hv]
  · show DeleteQuery.str q = "" ↔ (DeleteQuery.toQuery q).isValid = false
    unfold DeleteQuery.str
    constructor
    · intro h
      by_contra hv
      rw [if_neg hv] at h
      simp only [String.append_assoc] at h
      exact append_ne_empty _ _ (by decide) h
    · intro hv
      rw [if_pos hv]

/-- C3: whatever the table name and the database, a freshly constructed builder is valid
if and only if its class is Select or Delete; fresh Insert, Create and Update builders
are not valid. -/
theorem fresh_valid_iff_select_or_delete (c : QueryClass) (table : String) (db : Database) :
    (c.isValid (c.construct table db) = true ↔ (c = .select ∨ c = .delete))
    ∧ (InsertQuery.init table db).isValid = false
    ∧ (CreateQuery.init table db).isValid = false
    ∧ (UpdateQuery.init table db).isValid = false := by
  refine ⟨?_, rfl, rfl, rfl⟩
  cases c <;>
    simp [QueryClass.isValid, QueryClass.base, QueryClass.construct, SelectQuery.init,
      InsertQuery.init, CreateQuery.init, UpdateQuery.init, DeleteQuery.init, Query.init,
      Query.setValid, Query.isValid]

/-- C4: a column with a non-empty table name renders as the table name, a dot and the
column name; a column without table name renders as the column name alone, and the
one-argument constructor produces a column without table name. -/
theorem column_str (t c : String) :
    (t ≠ "" → (Column.ofTable t c).str = t ++ "." ++ c)
    ∧ (Column.ofTable "" c).str = c
    ∧ (Column.ofName c).m_tableName = ""
    ∧ (Column.ofName c).str = c := by
  refine ⟨?_, ?_, rfl, ?_⟩
  · intro ht
    simp [Column.str, Column.ofTable, ht]
  · simp [Column.str, Column.ofTable]
  · simp [Column.str, Column.ofName]

theorem column_str_witness :
    "t" ≠ "" ∧ (Column.ofTable "t" "c").str = "t" ++ "." ++ "c" :=
  ⟨by decide, (column_str "t" "c").1 (by decide)⟩

/-- C5: on a Select, Update or Delete builder, `where(s)` appends `s` unchanged at the end
of the condition list, keeps the earlier conditions in order, and leaves the base object
(validity flag, table name, joins, database) as it was, for any `s`. -/
theorem where_raw_appends (s : String) :
    (∀ q : SelectQuery, (q.whereRaw s).m_conditions = q.m_conditions ++ [s]
      ∧ (q.whereRaw s).toQuery = q.toQuery
      ∧ (q.whereRaw s).isValid = q.isValid
      ∧ (q.whereRaw s).m_table = q.m_table
      ∧ (q.whereRaw s).m_joins = q.m_joins)
    ∧ (∀ q : UpdateQuery, (q.whereRaw s).m_conditions = q.m_conditions ++ [s]
      ∧ (q.whereRaw s).toQuery = q.toQuery
      ∧ (q.whereRaw s).isValid = q.isValid
      ∧ (q.whereRaw s).m_table = q.m_table
      ∧ (q.whereRaw s).m_joins = q.m_joins)
    ∧ (∀ q : DeleteQuery, (q.whereRaw s).m_conditions = q.m_conditions ++ [s]
      ∧ (q.whereRaw s).toQuery = q.toQuery
      ∧ (q.whereRaw s).isValid = q.isValid
      ∧ (q.whereRaw s).m_table = q.m_table
      ∧ (q.whereRaw s).m_joins = q.m_joins) :=
  ⟨fun _ => ⟨rfl, rfl, rfl, rfl, rfl⟩, fun _ => ⟨rfl, rfl, rfl, rfl, rfl⟩,
    fun _ => ⟨rfl, rfl, rfl, rfl, rfl⟩⟩

/-- C6: for each of the five tags, `createQuery<tag>(table, db)` is the builder that the
constructor of the matching class produces for the same arguments, with that table name,
the initial validity of that class, no join and an empty payload; the mapping from tags
to classes sends distinct tags to distinct classes and reaches every class. -/
theorem createQuery_eq_constructor (table : String) (db : Database) :
    createQuery .SELECT table db = SelectQuery.init table db
    ∧ createQuery .INSERT table db = InsertQuery.init table db
    ∧ createQuery .CREATE table db = CreateQuery.init table db
    ∧ createQuery .UPDATE table db = UpdateQuery.init table db
    ∧ createQuery .DELETE table db = DeleteQuery.init table db
    ∧ (∀ T : QueryTypes,
        ((FindQueryType T).base (createQuery T table db)).m_table = table
        ∧ ((FindQueryType T).base (createQuery T table db)).m_joins = []
        ∧ (FindQueryType T).isValid (createQuery T table db)
            = (FindQueryType T).isValid ((FindQueryType T).construct table db))
    ∧ (SelectQuery.init table db).m_columns = []
    ∧ (SelectQuery.init table db).m_conditions = []
    ∧ (SelectQuery.init table db).m_sortColumns = []
    ∧ (InsertQuery.init table db).m_values = []
    ∧ (CreateQuery.init table db).m_columns = []
    ∧ (UpdateQuery.init table db).m_set = []
    ∧ (UpdateQuery.init table db).m_conditions = []
    ∧ (DeleteQuery.init table db).m_conditions = []
    ∧ Function.Injective FindQueryType
    ∧ Function.Surjective FindQueryType := by
  refine ⟨rfl, rfl, rfl, rfl, rfl, ?_, rfl, rfl, rfl, rfl, rfl, rfl, rfl, rfl, ?_, ?_⟩
  · intro T
    cases T <;> exact ⟨rfl, rfl, rfl⟩
  · intro a b h
    cases a <;> cases b <;> first | rfl | exact absurd h (by decide)
  · intro c
    cases c
    · exact ⟨.SELECT, rfl⟩
    · exact ⟨.INSERT, rfl⟩
    · exact ⟨.CREATE, rfl⟩
    · exact ⟨.UPDATE, rfl⟩
    · exact ⟨.DELETE, rfl⟩

/-- C9: converting a DataType to its string and back gives the DataType again. -/
theorem dataType_roundtrip (d : DataType) :
    dataTypeFromString (dataTypeAsString d) = some d := by
  cases d <;> simp [dataTypeAsString, dataTypeFromString]

/-- C10: after `sort(c, asc)` the single direction flag of a Select builder equals `asc`,
whether or not `c` passed the column check; after `sort(a, true).sort(b, false)` the
flag is descending and the ORDER BY clause carries the one token DESC after the whole
list of sort columns. -/
theorem sort_sets_direction (q : SelectQuery) (c : Column) (asc : Bool) (a b : Column) :
    (q.sort c asc).m_sortAscending = asc
    ∧ ((q.sort a true).sort b false).m_sortAscending = false
    ∧ ((q.sort a true).sort b false).orderClause
        = (if ((q.sort a true).sort b false).m_sortColumns = [] then ""
           else " ORDER BY "
             ++ ", ".intercalate ((q.sort a true).sort b false).m_sortColumns ++ " DESC") := by
  refine ⟨rfl, rfl, ?_⟩
  have h : ((q.sort a true).sort b false).m_sortAscending = false := rfl
  unfold SelectQuery.orderClause
  rw [h]
  simp

/-! ## Joins -/

theorem Query.doColumn_eq (q : Query) (cols : List String) (c : Column) :
    q.doColumn cols c
      = if q.columnExists c then (q, cols ++ [c.str]) else (q.setValid false, cols) := by
  unfold Query.doColumn
  dsimp only
  rw [Query.checkColumnExistance_fst, Query.checkColumnExistance_snd]
  cases h : q.columnExists c <;> simp

theorem Query.doSort_eq (q : Query) (cols : List String) (c : Column) :
    q.doSort cols c
      = if q.columnExists c then (q, cols ++ [c.str]) else (q.setValid false, cols) := by
  unfold Query.doSort
  dsimp only
  rw [Query.checkColumnExistance_fst, Query.checkColumnExistance_snd]
  cases h : q.columnExists c <;> simp

end databaseTools
